import Mathlib

/-!
Verification development for the node-red-contrib-odbc-with-pooling module.

The development shallowly embeds the pool-manager configuration node
(`odbcPool`), the query/procedure executor nodes (`odbcQuery`,
`odbcProcedure`) and their helper functions from `odbc.js`, following the
consolidated variant whose node types are `odbc-pooling-*`.

Conventions of the embedding:
* JavaScript strings are Lean `String`s; `undefined`/missing string fields
  are the empty string unless modelled with `Option`.
* Results of awaited external driver calls (`odbc.pool`, `pool.connect`,
  `connection.query`, `connection.callProcedure`) are supplied as explicit
  `Except` oracles, so each embedded function is a pure function of the
  manager state and of the outcomes the driver would return.
* Timestamps (`Date.now()`) are natural numbers supplied explicitly.
-/

namespace OdbcPooling

/-- Boolean test that the first character list is an initial segment of the
second; used to build the substring test that embeds
`String.prototype.includes`. -/
def lpre : List Char → List Char → Bool
  | [], _ => true
  | _ :: _, [] => false
  | a :: as, b :: bs => a == b && lpre as bs

/-- Boolean test that `pat` occurs contiguously inside `s`; embeds
JavaScript `s.includes(pat)`. -/
def lsub (pat : List Char) : List Char → Bool
  | [] => lpre pat []
  | c :: rest => lpre pat (c :: rest) || lsub pat rest

/-- `strIncludes s pat` embeds the JavaScript expression `s.includes(pat)`. -/
def strIncludes (s pat : String) : Bool :=
  lsub pat.data s.data

/-- `strIncludesLower s pat` embeds `s.toLowerCase().includes(pat)` for the
ASCII patterns used by the classifier (lower-casing maps the basic latin
letters A-Z to a-z, character by character). -/
def strIncludesLower (s pat : String) : Bool :=
  lsub pat.data (s.data.map Char.toLower)

/-- A driver-reported error value: `message`, the optional `odbcErrors`
array (modelled by the list of its entries' `message` fields), and the
optional `code` and `sqlState` fields. -/
structure OdbcErr where
  message : String
  odbcErrors : List String
  code : Option String
  sqlState : Option String
  deriving Repr, DecidableEq

/-- Embeds the expression
`error.odbcErrors && error.odbcErrors[0] ? error.odbcErrors[0].message : error.message`
(with `|| ''` giving the empty string for a missing message). -/
def primaryMessage (e : OdbcErr) : String :=
  match e.odbcErrors with
  | m :: _ => m
  | [] => e.message

/-- Embeds the helper `isConnectionClosedError(error)`: the primary message
must be nonempty (the JS `errorMessage && (...)` guard) and either contain
one of four lower-cased stale-connection substrings, or the error carries
`code === 'IM001'` or `sqlState === '08003'`. -/
def isConnectionClosedError (e : OdbcErr) : Bool :=
  let m := primaryMessage e
  m ≠ "" &&
    (strIncludesLower m "connection closed" ||
     strIncludesLower m "not connected" ||
     strIncludesLower m "connection does not exist" ||
     strIncludesLower m "invalid connection" ||
     e.code == some "IM001" ||
     e.sqlState == some "08003")

/-- Embeds the pool-invalid classification inside `getConnection`'s catch
block: `errorMessage.includes('closed') || errorMessage.includes('invalid')
|| connectError.code === 'IM001' || connectError.sqlState === '08003'`,
where `errorMessage = connectError.message || ''` (case-sensitive, no
`odbcErrors` fallback). -/
def isPoolInvalidError (e : OdbcErr) : Bool :=
  strIncludes e.message "closed" ||
  strIncludes e.message "invalid" ||
  e.code == some "IM001" ||
  e.sqlState == some "08003"

example : isConnectionClosedError ⟨"Connection Does Not Exist", [], none, none⟩ = true := by decide
example : isConnectionClosedError ⟨"", [], some "IM001", none⟩ = false := by decide
example : isConnectionClosedError ⟨"boom", [], some "IM001", none⟩ = true := by decide
example : isConnectionClosedError ⟨"syntax error near FROM", [], none, none⟩ = false := by decide
example : isPoolInvalidError ⟨"pool is closed", [], none, none⟩ = true := by decide
example : isPoolInvalidError ⟨"Closed", [], none, none⟩ = false := by decide

/-! ## Pool lifecycle manager (`odbcPool` node) -/

deriving instance DecidableEq for Except

/-- A pool handle produced by `odbc.pool(config)`: an identity for the
underlying handle plus the configuration token it was created from. -/
structure PoolHandle where
  id : Nat
  cfg : Nat
  deriving Repr, DecidableEq

/-- The mutable fields of the `odbcPool` configuration node that the
lifecycle functions read and write: `poolConfig` (opaque token),
`closeConnectionIdleTime` (milliseconds, `none` when unset), `pool`,
`connecting`, `poolLastUsed` (a `Date.now()` value, `none` for `null`),
`poolClosedDueToIdle` and `poolActiveConnections`. -/
structure PoolMgrState where
  poolConfig : Nat
  closeConnectionIdleTime : Option Nat
  pool : Option PoolHandle
  connecting : Bool
  poolLastUsed : Option Nat
  poolClosedDueToIdle : Bool
  poolActiveConnections : Int
  deriving Repr, DecidableEq

/-- Embeds `this.closePool()`: best-effort close of the underlying handle
(errors swallowed, so the state change is unconditional), then
`pool = null; connecting = false; poolActiveConnections = 0`. -/
def closePool (s : PoolMgrState) : PoolMgrState :=
  { s with pool := none, connecting := false, poolActiveConnections := 0 }

/-- Result of `createPool`: the new node state, the `Except` outcome of the
awaited call, and whether `odbc.pool` was actually invoked. -/
structure CreatePoolRes where
  state : PoolMgrState
  result : Except OdbcErr Unit
  opened : Bool
  deriving Repr, DecidableEq

/-- Embeds `this.createPool()`. The oracle `openRes` is the outcome the
awaited `odbc.pool(this.poolConfig)` call would deliver (its payload is the
fresh handle's identity). If `this.pool !== null` the function returns at
once; otherwise it clears `poolClosedDueToIdle`, and on success stores the
new pool and clears `connecting`, while on failure it resets `pool = null`,
clears `connecting` and rethrows the error. -/
def createPool (s : PoolMgrState) (openRes : Except OdbcErr Nat) : CreatePoolRes :=
  if s.pool.isSome then ⟨s, .ok (), false⟩
  else
    let s1 := { s with poolClosedDueToIdle := false }
    match openRes with
    | .ok pid => ⟨{ s1 with pool := some ⟨pid, s.poolConfig⟩, connecting := false }, .ok (), true⟩
    | .error e => ⟨{ s1 with pool := none, connecting := false }, .error e, true⟩

/-- Result of `getConnection`: final state, outcome (payload is a
connection identity), the number of `pool.connect()` attempts made, and
the number of `odbc.pool` invocations performed during recovery. -/
structure GetConnRes where
  state : PoolMgrState
  result : Except OdbcErr Nat
  connectAttempts : Nat
  openCalls : Nat
  deriving Repr, DecidableEq

/-- Embeds `this.getConnection()`. Oracles: `c1` is the outcome of the
first `this.pool.connect()`, `openRes` the outcome of the `odbc.pool`
call inside the recovery path, and `c2` the outcome of the retried
`this.pool.connect()`. On a pool-invalid classified failure the code runs
`closePool()`, `createPool()` and retries the connect exactly once; any
error raised by that recovery path propagates, and a non-classified
failure propagates directly. -/
def getConnection (s : PoolMgrState) (c1 : Except OdbcErr Nat)
    (openRes : Except OdbcErr Nat) (c2 : Except OdbcErr Nat) : GetConnRes :=
  match c1 with
  | .ok c => ⟨s, .ok c, 1, 0⟩
  | .error e =>
    if isPoolInvalidError e then
      let r := createPool (closePool s) openRes
      match r.result with
      | .error ce => ⟨r.state, .error ce, 1, 1⟩
      | .ok _ =>
        match c2 with
        | .ok c => ⟨r.state, .ok c, 2, 1⟩
        | .error e2 => ⟨r.state, .error e2, 2, 1⟩
    else ⟨s, .error e, 1, 0⟩

/-- Result of `connect`: final state, outcome, and the total number of
`odbc.pool` invocations performed by this call. -/
structure ConnectRes where
  state : PoolMgrState
  result : Except OdbcErr Nat
  openCalls : Nat
  deriving Repr, DecidableEq

/-- Embeds `this.connect()` at time `now`. It runs `createPool` (oracle
`openRes`), then `getConnection` (oracles `c1`, `openRes2`, `c2`); on a
successful lease it increments `poolActiveConnections` and sets
`poolLastUsed = Date.now()` before handing out the wrapped connection.
(`startCleanupInterval` only registers a timer and is not part of the
state modelled here.) -/
def connect (s : PoolMgrState) (now : Nat) (openRes : Except OdbcErr Nat)
    (c1 : Except OdbcErr Nat) (openRes2 : Except OdbcErr Nat)
    (c2 : Except OdbcErr Nat) : ConnectRes :=
  let cr := createPool s openRes
  let created : Nat := if cr.opened then 1 else 0
  match cr.result with
  | .error e => ⟨cr.state, .error e, created⟩
  | .ok _ =>
    let g := getConnection cr.state c1 openRes2 c2
    match g.result with
    | .error e => ⟨g.state, .error e, created + g.openCalls⟩
    | .ok c =>
      ⟨{ g.state with
          poolActiveConnections := g.state.poolActiveConnections + 1,
          poolLastUsed := some now },
        .ok c, created + g.openCalls⟩

/-- Embeds `this.cleanupIdlePool()` evaluated at time `now`: a no-op
unless an idle threshold is configured, a pool exists and `poolLastUsed`
is set; otherwise, when `now - poolLastUsed >= closeConnectionIdleTime`,
it closes the pool (errors swallowed) and sets `poolClosedDueToIdle` and
`poolLastUsed = null`. `poolActiveConnections` is never consulted. -/
def cleanupIdlePool (s : PoolMgrState) (now : Nat) : PoolMgrState :=
  match s.closeConnectionIdleTime, s.pool, s.poolLastUsed with
  | some t, some _, some lu =>
    if t ≤ now - lu then
      { closePool s with poolClosedDueToIdle := true, poolLastUsed := none }
    else s
  | _, _, _ => s

/-! ## Retrying executor (`odbcQuery.runQuery` / `odbcProcedure.runProcedure`) -/

/-- Observable outcome of one `runQuery` (or `runProcedure`) execution,
starting after a successful `connect`: the caller-visible result, the
number of driver `connection.query` (resp. `callProcedure`) invocations,
and the number of error deliveries (`done(error)` /
`handleNodeError`) made to the caller. -/
structure ExecRes where
  result : Except OdbcErr Nat
  queryCalls : Nat
  doneErrs : Nat
  deriving Repr, DecidableEq

/-- Embeds the execute-with-retry section of `runQuery` (identical in
shape in `runProcedure`). Oracles: `q1` is the outcome of the first
`connection.query`, `reconn` the outcome of the `this.poolNode.connect()`
inside the retry branch, and `q2` the outcome of the retried query. A
first failure classified by `isConnectionClosedError` closes the stale
connection (best-effort), acquires a fresh connection and retries once;
the retry's error, or an unclassified first error, is delivered to the
caller exactly once; a success (first attempt or retry) is sent with
`done()` carrying no error. -/
def runQueryRetry (q1 : Except OdbcErr Nat) (reconn : Except OdbcErr Unit)
    (q2 : Except OdbcErr Nat) : ExecRes :=
  match q1 with
  | .ok r => ⟨.ok r, 1, 0⟩
  | .error e =>
    if isConnectionClosedError e then
      match reconn with
      | .error ce => ⟨.error ce, 1, 1⟩
      | .ok _ =>
        match q2 with
        | .ok r => ⟨.ok r, 2, 0⟩
        | .error e2 => ⟨.error e2, 2, 1⟩
    else ⟨.error e, 1, 1⟩

/-- `true` when an execute outcome is a failure classified by
`isConnectionClosedError`. -/
def isStaleFailure : Except OdbcErr Nat → Bool
  | .ok _ => false
  | .error e => isConnectionClosedError e

/-- `true` when the retry branch's `this.poolNode.connect()` fails. -/
def reconnFails : Except OdbcErr Unit → Bool
  | .ok _ => false
  | .error _ => true

/-- The sequence of `connection.close()` invocations `runQuery` performs,
as connection identities in invocation order: connection `1` is the one
acquired at entry, connection `2` the fresh one acquired by the retry
branch. `parseOk` is whether the payload-parsing step succeeded (a parse
failure closes connection 1 and exits). In the retry branch the code
closes `connection` (still connection 1) before re-acquiring; if the
re-acquire itself fails, the `catch (retryError)` handler closes
`connection` again, which still refers to connection 1. -/
def runQueryCloses (parseOk : Bool) (q1 : Except OdbcErr Nat)
    (reconn : Except OdbcErr Unit) (q2 : Except OdbcErr Nat) : List Nat :=
  if !parseOk then [1]
  else
    match q1 with
    | .ok _ => [1]
    | .error e =>
      if isConnectionClosedError e then
        match reconn with
        | .error _ => [1, 1]
        | .ok _ =>
          match q2 with
          | .ok _ => [1, 2]
          | .error _ => [1, 2]
      else [1]

/-- The connections `runQuery` acquires: connection 1 at entry, and
connection 2 exactly when a stale-classified first failure leads to a
successful re-acquire inside the retry branch. -/
def acquiredConns (parseOk : Bool) (q1 : Except OdbcErr Nat)
    (reconn : Except OdbcErr Unit) : List Nat :=
  if parseOk && isStaleFailure q1 && !reconnFails reconn then [1, 2] else [1]

/-! ## Lease accounting (`wrapConnectionMethods` close wrapper and
`connect`'s checkout counting) -/

/-- One caller-visible lease operation: `acquire` is a successful
`this.connect()` checkout (which increments `poolActiveConnections` and
hands out a wrapped connection with a fresh identity), `release i` is an
invocation of the wrapped `close()` on the connection with identity `i`. -/
inductive LeaseOp where
  | acquire
  | release (i : Nat)
  deriving Repr, DecidableEq

/-- Lease-accounting state: `nextId` counts acquires (identities
`0, …, nextId-1` have been handed out), `closed` lists the identities
whose wrapper `hasClosed` flag is set, and `count` is
`poolActiveConnections`. -/
structure LeaseState where
  nextId : Nat
  closed : List Nat
  count : Int
  deriving Repr, DecidableEq

/-- Applies one lease operation. `acquire` embeds
`this.poolActiveConnections += 1` at checkout; `release i` embeds the
wrapped `close`: if `hasClosed` is already set it only delegates to the
driver close, otherwise it sets `hasClosed` and runs
`poolActiveConnections = Math.max(0, poolActiveConnections - 1)`. -/
def applyLeaseOp (s : LeaseState) : LeaseOp → LeaseState
  | .acquire => ⟨s.nextId + 1, s.closed, s.count + 1⟩
  | .release i =>
    if i ∈ s.closed then s
    else ⟨s.nextId, i :: s.closed, max 0 (s.count - 1)⟩

/-- Runs a sequence of lease operations. -/
def runLeaseOps (s : LeaseState) : List LeaseOp → LeaseState
  | [] => s
  | op :: rest => runLeaseOps (applyLeaseOp s op) rest

/-- The initial lease-accounting state of a fresh `odbcPool` node
(`poolActiveConnections = 0`, nothing handed out). -/
def initLease : LeaseState := ⟨0, [], 0⟩

/-- A lease-operation sequence is valid from a state that has handed out
identities below `n` when every `release` targets an identity that has
been handed out at that point — i.e. releases are invoked only on
connections obtained from `connect`. -/
def validLeaseOps : Nat → List LeaseOp → Bool
  | _, [] => true
  | n, .acquire :: rest => validLeaseOps (n + 1) rest
  | n, .release i :: rest => decide (i < n) && validLeaseOps n rest

/-- Number of `acquire` operations in a sequence. -/
def countAcquires : List LeaseOp → Nat
  | [] => 0
  | .acquire :: rest => countAcquires rest + 1
  | .release _ :: rest => countAcquires rest

/-! ## Connection wrapping (`wrapConnectionMethods` query/procedure
wrappers) -/

/-- Embeds the wrapped `connection.query` (and, identically,
`connection.callProcedure`) produced by `wrapConnectionMethods`: it first
runs `updatePoolLastUsed()` (setting `poolNode.poolLastUsed = Date.now()`)
and then returns exactly `originalQuery(...args)`. The underlying driver
call is modelled as a function `driver` of the node state it observes, so
that the order of the two effects is visible in the result. -/
def wrappedCall (s : PoolMgrState) (now : Nat)
    (driver : PoolMgrState → Except OdbcErr Nat) :
    PoolMgrState × Except OdbcErr Nat :=
  let s1 := { s with poolLastUsed := some now }
  (s1, driver s1)

/-! ## Procedure-node configuration (`odbcProcedure`) -/

/-- A JavaScript value as far as the procedure node's `catalog`/`schema`
handling observes it. -/
inductive JSVal where
  | vNull
  | vUndefined
  | vStr (s : String)
  deriving Repr, DecidableEq

/-- JavaScript truthiness for the values of `JSVal`: `null` and
`undefined` are falsy, a string is truthy exactly when nonempty. -/
def truthy : JSVal → Bool
  | .vNull => false
  | .vUndefined => false
  | .vStr s => s ≠ ""

/-- Embeds `config.catalog || null` (and `config.schema || null`), the
normalization the procedure node applies to its configured catalog and
schema before use. -/
def jsOrNull (v : JSVal) : JSVal :=
  if truthy v then v else .vNull

/-- Embeds the construction of the procedure node's stored
`this.catalog` / `this.schema` pair from its configuration. -/
def procedureNodeInit (cfgCatalog cfgSchema : JSVal) : JSVal × JSVal :=
  (jsOrNull cfgCatalog, jsOrNull cfgSchema)

/-- Embeds `payloadData.catalog || catalog`: an absent payload leaves the
node's value in place, a falsy payload value also falls back to it. -/
def jsOrElse : Option JSVal → JSVal → JSVal
  | none, d => d
  | some v, d => if truthy v then v else d

/-- The `(catalog, schema)` pair `runProcedure` passes to the driver's
`callProcedure`, given the node's stored pair and the optional payload
overrides. -/
def procCallArgs (node : JSVal × JSVal)
    (payloadCatalog payloadSchema : Option JSVal) : JSVal × JSVal :=
  (jsOrElse payloadCatalog node.1, jsOrElse payloadSchema node.2)

/-! ## Single-flight initialization (`checkPool` gate and `createPool`)

The interleaving model: each caller is an asynchronous task; a scheduler
step runs one task's next atomic block, where a block is a maximal run of
synchronous JavaScript between two `await` suspension points. The fields
below mirror the shared `odbcPool` node state this protocol touches, plus
two observers: the identities of `odbc.pool` creations currently awaited
(`inFlight`) and the total number of `odbc.pool` invocations
(`openCalls`). Every creation is assumed to succeed, matching the claim's
premise. -/

/-- Shared manager state of the initialization protocol. -/
structure InitState where
  pool : Option Nat
  connecting : Bool
  inFlight : List Nat
  nextCid : Nat
  openCalls : Nat
  deriving Repr, DecidableEq

/-- A caller task's continuation point.
* `gatedStart`: about to run `checkPool`'s synchronous prefix — the path
  the query node's `input` handler takes.
* `directStart`: about to run `runProcedure`'s path straight into
  `this.poolNode.connect()` — the procedure node registers
  `this.on('input', this.runProcedure)`, so its callers never execute the
  `checkPool` gate.
* `awaitingOpen cid`: suspended inside `createPool` on
  `await odbc.pool(...)` for creation `cid`.
* `leased`: finished with a leased connection. -/
inductive TaskPhase where
  | gatedStart
  | directStart
  | awaitingOpen (cid : Nat)
  | leased
  deriving Repr, DecidableEq

/-- One atomic block of one task.
* From `gatedStart`: `checkPool` re-checks `connecting` — if set, it
  re-schedules itself (`setTimeout`), leaving state and phase unchanged;
  if the pool is absent it sets `connecting = true` and runs (still
  synchronously) into `createPool`, which starts `odbc.pool` and
  suspends; if the pool exists it proceeds to lease from it.
* From `directStart`: `runProcedure` runs into `createPool` without
  consulting or setting `connecting`; if the pool is absent it starts
  `odbc.pool` and suspends, else it leases.
* From `awaitingOpen cid`: the awaited creation resolves —
  `this.pool = <new pool>; this.connecting = false` — and the task goes
  on to lease from `this.pool`.
* `leased` is terminal. -/
def taskStep (m : InitState) : TaskPhase → InitState × TaskPhase
  | .gatedStart =>
    if m.connecting then (m, .gatedStart)
    else
      match m.pool with
      | none =>
        ({ m with
            connecting := true,
            inFlight := m.nextCid :: m.inFlight,
            nextCid := m.nextCid + 1,
            openCalls := m.openCalls + 1 }, .awaitingOpen m.nextCid)
      | some _ => (m, .leased)
  | .directStart =>
    match m.pool with
    | none =>
      ({ m with
          inFlight := m.nextCid :: m.inFlight,
          nextCid := m.nextCid + 1,
          openCalls := m.openCalls + 1 }, .awaitingOpen m.nextCid)
    | some _ => (m, .leased)
  | .awaitingOpen cid =>
    ({ m with
        pool := some cid,
        connecting := false,
        inFlight := m.inFlight.erase cid }, .leased)
  | .leased => (m, .leased)

/-- A system: the shared manager state and the phases of all tasks. -/
structure InitSys where
  mgr : InitState
  tasks : List TaskPhase
  deriving Repr, DecidableEq

/-- Runs the atomic block of task `i` (out-of-range indices are no-ops). -/
def sysStep (s : InitSys) (i : Nat) : InitSys :=
  match s.tasks.get? i with
  | none => s
  | some ph =>
    let r := taskStep s.mgr ph
    ⟨r.1, s.tasks.set i r.2⟩

/-- Runs a schedule: a list of task indices, executed in order. -/
def runSched (s : InitSys) : List Nat → InitSys
  | [] => s
  | i :: rest => runSched (sysStep s i) rest

/-- The initial system: no pool, `connecting = false`, no creation in
flight, and the given caller tasks poised at their entry points. -/
def initSys (tasks : List TaskPhase) : InitSys :=
  ⟨⟨none, false, [], 0, 0⟩, tasks⟩

/-! ## Theorems -/

/-- Claim C2 (counterexample): a state with one active lease
(`poolActiveConnections = 1`), a live pool, and a last-activity timestamp
older than the configured threshold, is closed by the reclaimer tick —
the claim says a tick must never close the pool while
`activeLeaseCount > 0`. -/
theorem C2_counterexample :
    let sBusy : PoolMgrState := ⟨0, some 1000, some ⟨0, 0⟩, false, some 0, false, 1⟩
    0 < sBusy.poolActiveConnections ∧ sBusy.pool.isSome = true ∧
      (cleanupIdlePool sBusy 2000).pool = none := by
  refine ⟨by decide, by decide, ?_⟩
  decide

/-- Claim C2 (amended): a reclaimer tick's decision never consults
`poolActiveConnections`. Whenever an idle threshold is configured, a pool
exists, `poolLastUsed` is set and `now - poolLastUsed ≥ threshold`, the
tick closes the pool and clears the last-activity timestamp — including
when active leases are outstanding; changing `poolActiveConnections` to
any value cannot prevent the closure. -/
theorem C2_reclaimer_ignores_active_leases (s : PoolMgrState) (now t lu : Nat)
    (ht : s.closeConnectionIdleTime = some t) (hp : s.pool.isSome = true)
    (hl : s.poolLastUsed = some lu) (hidle : t ≤ now - lu) :
    (cleanupIdlePool s now).pool = none ∧
    (cleanupIdlePool s now).poolLastUsed = none ∧
    (cleanupIdlePool s now).poolClosedDueToIdle = true ∧
    ∀ n : Int, (cleanupIdlePool { s with poolActiveConnections := n } now).pool = none := by
  obtain ⟨p, hp'⟩ := Option.isSome_iff_exists.mp hp
  refine ⟨?_, ?_, ?_, ?_⟩ <;>
    simp [cleanupIdlePool, ht, hp', hl, hidle, closePool]

/-- Claim C2 (amended, witness): instantiation at a busy state with one
active lease whose pool is nevertheless closed by the tick. -/
theorem C2_reclaimer_ignores_active_leases_witness :
    (cleanupIdlePool ⟨0, some 1000, some ⟨0, 0⟩, false, some 0, false, 1⟩ 2000).pool = none ∧
    (cleanupIdlePool ⟨0, some 1000, some ⟨0, 0⟩, false, some 0, false, 1⟩ 2000).poolLastUsed = none ∧
    (cleanupIdlePool ⟨0, some 1000, some ⟨0, 0⟩, false, some 0, false, 1⟩ 2000).poolClosedDueToIdle = true ∧
    ∀ n : Int,
      (cleanupIdlePool
        { (⟨0, some 1000, some ⟨0, 0⟩, false, some 0, false, 1⟩ : PoolMgrState) with
            poolActiveConnections := n } 2000).pool = none :=
  C2_reclaimer_ignores_active_leases _ 2000 1000 0 rfl rfl rfl (by decide)

/-- Claim C6: when leasing from an established pool fails with a
pool-invalid classified error, `getConnection` closes and discards the
current pool, creates a new pool from the same `poolConfig`, and retries
the lease exactly once (two `pool.connect` attempts, one `odbc.pool`
call); the retry's outcome — success or failure — is returned to the
caller unchanged, with no further retries at this layer. -/
theorem C6_invalid_pool_recovery (s : PoolMgrState) (e : OdbcErr) (pid : Nat)
    (c2 : Except OdbcErr Nat) (hinv : isPoolInvalidError e = true) :
    (getConnection s (.error e) (.ok pid) c2).connectAttempts = 2 ∧
    (getConnection s (.error e) (.ok pid) c2).openCalls = 1 ∧
    (getConnection s (.error e) (.ok pid) c2).state.pool = some ⟨pid, s.poolConfig⟩ ∧
    (getConnection s (.error e) (.ok pid) c2).result = c2 := by
  cases c2 <;> simp [getConnection, hinv, createPool, closePool]

/-- Claim C6 (witness): instantiation at a pool-invalid classified error
whose retry fails, showing the retry's error propagating. -/
theorem C6_invalid_pool_recovery_witness :
    (getConnection ⟨5, none, some ⟨0, 5⟩, false, some 0, false, 2⟩
      (.error ⟨"connection closed by peer", [], none, none⟩) (.ok 9)
      (.error ⟨"still down", [], none, none⟩)).connectAttempts = 2 ∧
    (getConnection ⟨5, none, some ⟨0, 5⟩, false, some 0, false, 2⟩
      (.error ⟨"connection closed by peer", [], none, none⟩) (.ok 9)
      (.error ⟨"still down", [], none, none⟩)).openCalls = 1 ∧
    (getConnection ⟨5, none, some ⟨0, 5⟩, false, some 0, false, 2⟩
      (.error ⟨"connection closed by peer", [], none, none⟩) (.ok 9)
      (.error ⟨"still down", [], none, none⟩)).state.pool = some ⟨9, 5⟩ ∧
    (getConnection ⟨5, none, some ⟨0, 5⟩, false, some 0, false, 2⟩
      (.error ⟨"connection closed by peer", [], none, none⟩) (.ok 9)
      (.error ⟨"still down", [], none, none⟩)).result
        = .error ⟨"still down", [], none, none⟩ :=
  C6_invalid_pool_recovery _ _ 9 _ (by decide)

/-- Claim C7: when pool creation fails, `createPool` returns the manager
to the absent state — `pool = null`, `connecting = false` — and
propagates the creation error to the caller; a subsequent creation
attempt from that state invokes `odbc.pool` again and can succeed, so no
partially-created handle remains. -/
theorem C7_failed_creation_resets (s : PoolMgrState) (e : OdbcErr) (pid : Nat)
    (h : s.pool = none) :
    (createPool s (.error e)).state.pool = none ∧
    (createPool s (.error e)).state.connecting = false ∧
    (createPool s (.error e)).result = .error e ∧
    (createPool (createPool s (.error e)).state (.ok pid)).state.pool
      = some ⟨pid, s.poolConfig⟩ ∧
    (createPool (createPool s (.error e)).state (.ok pid)).opened = true := by
  simp [createPool, h]

/-- Claim C7 (witness): instantiation at the fresh node state and a
failing `odbc.pool` call. -/
theorem C7_failed_creation_resets_witness :
    (createPool ⟨0, none, none, false, none, false, 0⟩
      (.error ⟨"bad dsn", [], none, none⟩)).state.pool = none ∧
    (createPool ⟨0, none, none, false, none, false, 0⟩
      (.error ⟨"bad dsn", [], none, none⟩)).state.connecting = false ∧
    (createPool ⟨0, none, none, false, none, false, 0⟩
      (.error ⟨"bad dsn", [], none, none⟩)).result = .error ⟨"bad dsn", [], none, none⟩ ∧
    (createPool (createPool ⟨0, none, none, false, none, false, 0⟩
      (.error ⟨"bad dsn", [], none, none⟩)).state (.ok 7)).state.pool = some ⟨7, 0⟩ ∧
    (createPool (createPool ⟨0, none, none, false, none, false, 0⟩
      (.error ⟨"bad dsn", [], none, none⟩)).state (.ok 7)).opened = true :=
  C7_failed_creation_resets _ _ 7 rfl

/-- Claim C8: with an idle threshold `t` configured, a pool whose
last-activity timestamp is at least `t` old and which has zero active
leases is closed by the next reclaimer tick — the pool becomes absent and
last-activity is cleared — and the following `connect()` transparently
recreates the pool with exactly one fresh `odbc.pool` invocation from the
same `poolConfig`, delivering a lease with no error surfaced from the
recreation. -/
theorem C8_idle_reclaim_then_recreate (s : PoolMgrState)
    (now now2 t lu pid cid : Nat)
    (_hz : s.poolActiveConnections = 0)
    (ht : s.closeConnectionIdleTime = some t) (hp : s.pool.isSome = true)
    (hl : s.poolLastUsed = some lu) (hidle : t ≤ now - lu) :
    (cleanupIdlePool s now).pool = none ∧
    (cleanupIdlePool s now).poolLastUsed = none ∧
    (connect (cleanupIdlePool s now) now2 (.ok pid) (.ok cid)
        (.ok 0) (.ok 0)).openCalls = 1 ∧
    (connect (cleanupIdlePool s now) now2 (.ok pid) (.ok cid)
        (.ok 0) (.ok 0)).result = .ok cid ∧
    (connect (cleanupIdlePool s now) now2 (.ok pid) (.ok cid)
        (.ok 0) (.ok 0)).state.pool = some ⟨pid, s.poolConfig⟩ ∧
    (connect (cleanupIdlePool s now) now2 (.ok pid) (.ok cid)
        (.ok 0) (.ok 0)).state.poolActiveConnections = 1 ∧
    (connect (cleanupIdlePool s now) now2 (.ok pid) (.ok cid)
        (.ok 0) (.ok 0)).state.poolLastUsed = some now2 := by
  obtain ⟨p, hp'⟩ := Option.isSome_iff_exists.mp hp
  refine ⟨?_, ?_, ?_, ?_, ?_, ?_, ?_⟩ <;>
    simp [cleanupIdlePool, ht, hp', hl, hidle, closePool, connect,
      createPool, getConnection]

/-- Claim C8 (witness): instantiation at a concrete idle pool, tick time
and recreation oracles. -/
theorem C8_idle_reclaim_then_recreate_witness :
    (cleanupIdlePool ⟨4, some 1000, some ⟨0, 4⟩, false, some 0, false, 0⟩ 1500).pool = none ∧
    (cleanupIdlePool ⟨4, some 1000, some ⟨0, 4⟩, false, some 0, false, 0⟩ 1500).poolLastUsed = none ∧
    (connect (cleanupIdlePool ⟨4, some 1000, some ⟨0, 4⟩, false, some 0, false, 0⟩ 1500) 1600
        (.ok 7) (.ok 3) (.ok 0) (.ok 0)).openCalls = 1 ∧
    (connect (cleanupIdlePool ⟨4, some 1000, some ⟨0, 4⟩, false, some 0, false, 0⟩ 1500) 1600
        (.ok 7) (.ok 3) (.ok 0) (.ok 0)).result = .ok 3 ∧
    (connect (cleanupIdlePool ⟨4, some 1000, some ⟨0, 4⟩, false, some 0, false, 0⟩ 1500) 1600
        (.ok 7) (.ok 3) (.ok 0) (.ok 0)).state.pool = some ⟨7, 4⟩ ∧
    (connect (cleanupIdlePool ⟨4, some 1000, some ⟨0, 4⟩, false, some 0, false, 0⟩ 1500) 1600
        (.ok 7) (.ok 3) (.ok 0) (.ok 0)).state.poolActiveConnections = 1 ∧
    (connect (cleanupIdlePool ⟨4, some 1000, some ⟨0, 4⟩, false, some 0, false, 0⟩ 1500) 1600
        (.ok 7) (.ok 3) (.ok 0) (.ok 0)).state.poolLastUsed = some 1600 :=
  C8_idle_reclaim_then_recreate _ 1500 1600 1000 0 7 3 rfl rfl rfl rfl (by decide)

/-- Claim C9: the wrapped `query`/`callProcedure` produced by
`wrapConnectionMethods` refreshes the last-activity timestamp before
delegating — the driver call observes `poolLastUsed = now` — and returns
exactly the driver's outcome (result payload or raised error, both
carried by the `Except` value), while leaving every other manager field
untouched. -/
theorem C9_wrapper_pure_observer (s : PoolMgrState) (now : Nat)
    (driver : PoolMgrState → Except OdbcErr Nat) :
    (wrappedCall s now driver).2 = driver { s with poolLastUsed := some now } ∧
    (wrappedCall s now driver).1.poolLastUsed = some now ∧
    (wrappedCall s now driver).1.pool = s.pool ∧
    (wrappedCall s now driver).1.poolActiveConnections = s.poolActiveConnections ∧
    (wrappedCall s now driver).1.connecting = s.connecting ∧
    (wrappedCall s now driver).1.poolClosedDueToIdle = s.poolClosedDueToIdle ∧
    (wrappedCall s now driver).1.closeConnectionIdleTime = s.closeConnectionIdleTime ∧
    (wrappedCall s now driver).1.poolConfig = s.poolConfig := by
  simp [wrappedCall]

/-- Claim C10: the procedure node's configured catalog and schema are
normalized with `config.catalog || null` / `config.schema || null`: every
falsy configured value (empty string, `undefined`, `null`) is stored as
`null`, a truthy value is stored unchanged, and with no payload override
`runProcedure` passes exactly these stored values as the catalog/schema
arguments of the driver's `callProcedure`. -/
theorem C10_catalog_schema_normalized (s : String) (hs : s ≠ "") :
    (∀ v : JSVal, truthy v = false → jsOrNull v = .vNull) ∧
    jsOrNull .vNull = .vNull ∧
    jsOrNull .vUndefined = .vNull ∧
    jsOrNull (.vStr "") = .vNull ∧
    jsOrNull (.vStr s) = .vStr s ∧
    (∀ c sch : JSVal,
      procCallArgs (procedureNodeInit c sch) none none
        = (jsOrNull c, jsOrNull sch)) := by
  refine ⟨?_, rfl, rfl, rfl, ?_, ?_⟩
  · intro v hv
    simp [jsOrNull, hv]
  · simp [jsOrNull, truthy, hs]
  · intro c sch
    simp [procCallArgs, procedureNodeInit, jsOrElse]

/-- Claim C10 (witness): instantiation at the truthy configured catalog
string MYCAT. -/
theorem C10_catalog_schema_normalized_witness :
    (∀ v : JSVal, truthy v = false → jsOrNull v = .vNull) ∧
    jsOrNull .vNull = .vNull ∧
    jsOrNull .vUndefined = .vNull ∧
    jsOrNull (.vStr "") = .vNull ∧
    jsOrNull (.vStr "MYCAT") = .vStr "MYCAT" ∧
    (∀ c sch : JSVal,
      procCallArgs (procedureNodeInit c sch) none none
        = (jsOrNull c, jsOrNull sch)) :=
  C10_catalog_schema_normalized "MYCAT" (by decide)

/-- Claim C3: an execute call whose first driver invocation fails with a
stale-connection classified error is retried exactly once on a freshly
acquired connection (two driver invocations in total); if the retry
succeeds the caller receives the retry's result with zero error
deliveries, if the retry fails the caller receives exactly one error; and
no execution of the retry section ever makes more than two driver
invocations. -/
theorem C3_stale_retry_once (e : OdbcErr) (q2 : Except OdbcErr Nat)
    (hstale : isConnectionClosedError e = true) :
    (runQueryRetry (.error e) (.ok ()) q2).queryCalls = 2 ∧
    (∀ r, q2 = .ok r →
      runQueryRetry (.error e) (.ok ()) q2 = ⟨.ok r, 2, 0⟩) ∧
    (∀ e2, q2 = .error e2 →
      runQueryRetry (.error e) (.ok ()) q2 = ⟨.error e2, 2, 1⟩) ∧
    (∀ a b c, (runQueryRetry a b c).queryCalls ≤ 2) := by
  refine ⟨?_, ?_, ?_, ?_⟩
  · cases q2 <;> simp [runQueryRetry, hstale]
  · intro r hr
    subst hr
    simp [runQueryRetry, hstale]
  · intro e2 h2
    subst h2
    simp [runQueryRetry, hstale]
  · intro a b c
    cases a with
    | ok r => simp [runQueryRetry]
    | error e1 =>
      cases b with
      | ok u =>
        cases c <;>
          rcases Bool.eq_false_or_eq_true (isConnectionClosedError e1) with h | h <;>
            simp [runQueryRetry, h]
      | error ce =>
        rcases Bool.eq_false_or_eq_true (isConnectionClosedError e1) with h | h <;>
          simp [runQueryRetry, h]

/-- Claim C3 (witness): instantiation at a stale-classified first failure
(code IM001) whose retry fails with an execution error. -/
theorem C3_stale_retry_once_witness :
    (runQueryRetry (.error ⟨"boom", [], some "IM001", none⟩) (.ok ())
      (.error ⟨"bad query", [], none, none⟩)).queryCalls = 2 ∧
    (∀ r, (.error ⟨"bad query", [], none, none⟩ : Except OdbcErr Nat) = .ok r →
      runQueryRetry (.error ⟨"boom", [], some "IM001", none⟩) (.ok ())
        (.error ⟨"bad query", [], none, none⟩) = ⟨.ok r, 2, 0⟩) ∧
    (∀ e2, (.error ⟨"bad query", [], none, none⟩ : Except OdbcErr Nat) = .error e2 →
      runQueryRetry (.error ⟨"boom", [], some "IM001", none⟩) (.ok ())
        (.error ⟨"bad query", [], none, none⟩) = ⟨.error e2, 2, 1⟩) ∧
    (∀ a b c, (runQueryRetry a b c).queryCalls ≤ 2) :=
  C3_stale_retry_once ⟨"boom", [], some "IM001", none⟩
    (.error ⟨"bad query", [], none, none⟩) (by decide)

/-- Claim C5 (counterexample): on the exit path where the first query
fails with a stale-classified error and the retry's re-acquire of a fresh
connection itself fails, `runQuery` invokes `close()` twice on the same
acquired connection (once when entering the retry branch, once in the
`catch (retryError)` handler, where `connection` still refers to the old
connection) — the claim says never more than once. -/
theorem C5_counterexample :
    runQueryCloses true (.error ⟨"boom", [], some "IM001", none⟩)
      (.error ⟨"pool exhausted", [], none, none⟩) (.ok 0) = [1, 1] ∧
    (runQueryCloses true (.error ⟨"boom", [], some "IM001", none⟩)
      (.error ⟨"pool exhausted", [], none, none⟩) (.ok 0)).count 1 = 2 := by
  refine ⟨?_, ?_⟩ <;> decide

/-- Claim C5 (amended): on every exit path the executor closes each
connection it acquired at least once — never zero times — and at most
once on all paths except the exhausted-retry path in which re-acquiring
the fresh connection fails: there the already-closed stale connection's
`close()` is invoked a second time (which the wrapper's `hasClosed` flag
turns into a driver-level no-op for lease accounting). -/
theorem C5_release_every_path (parseOk : Bool) (q1 : Except OdbcErr Nat)
    (reconn : Except OdbcErr Unit) (q2 : Except OdbcErr Nat) :
    (∀ c ∈ acquiredConns parseOk q1 reconn,
      c ∈ runQueryCloses parseOk q1 reconn q2) ∧
    (if parseOk && isStaleFailure q1 && reconnFails reconn then
      runQueryCloses parseOk q1 reconn q2 = [1, 1]
    else
      (runQueryCloses parseOk q1 reconn q2).Nodup) := by
  cases parseOk with
  | false => simp [runQueryCloses, acquiredConns]
  | true =>
    cases q1 with
    | ok r => simp [runQueryCloses, acquiredConns, isStaleFailure]
    | error e =>
      rcases Bool.eq_false_or_eq_true (isConnectionClosedError e) with h | h <;>
        cases reconn with
        | ok u =>
          cases q2 <;>
            simp [runQueryCloses, acquiredConns, isStaleFailure, reconnFails, h]
        | error ce =>
          simp [runQueryCloses, acquiredConns, isStaleFailure, reconnFails, h]

/-- Claim C5 (amended, witness): instantiation at the plain success path,
where the single acquired connection is closed exactly once. -/
theorem C5_release_every_path_witness :
    (∀ c ∈ acquiredConns true (.ok 5) (.ok ()),
      c ∈ runQueryCloses true (.ok 5) (.ok ()) (.ok 0)) ∧
    (if true && isStaleFailure (.ok 5) && reconnFails (.ok ()) then
      runQueryCloses true (.ok 5) (.ok ()) (.ok 0) = [1, 1]
    else
      (runQueryCloses true (.ok 5) (.ok ()) (.ok 0)).Nodup) :=
  C5_release_every_path true (.ok 5) (.ok ()) (.ok 0)

/-- Claim C1 (code bug demonstration): two procedure-node input events
arriving while no pool exists each run `runProcedure` — the handler the
procedure node registers instead of its `checkPool` gate — and each
starts an `odbc.pool` creation before the other's resolves: after the two
entry blocks the model shows two creations in flight and two `odbc.pool`
invocations for the same pool node, violating single-flight
initialization. -/
theorem C1_procedure_path_double_creation :
    (runSched (initSys [.directStart, .directStart]) [0, 1]).mgr.openCalls = 2 ∧
    (runSched (initSys [.directStart, .directStart]) [0, 1]).mgr.inFlight.length = 2 ∧
    (runSched (initSys [.directStart, .directStart]) [0, 1]).mgr.pool = none := by
  refine ⟨?_, ?_, ?_⟩ <;> decide

/-- The lease-accounting invariant: the set of closed identities has no
duplicates, every closed identity was handed out, at most as many
connections are closed as were handed out, and `poolActiveConnections`
equals handed-out minus closed. -/
def leaseInv (s : LeaseState) : Prop :=
  s.closed.Nodup ∧ (∀ i ∈ s.closed, i < s.nextId) ∧
  s.closed.length ≤ s.nextId ∧
  s.count = (s.nextId : Int) - s.closed.length

/-- An `acquire` preserves the lease-accounting invariant. -/
theorem applyLeaseOp_acquire_inv (s : LeaseState) (h : leaseInv s) :
    leaseInv (applyLeaseOp s .acquire) := by
  obtain ⟨h1, h2, h3, h4⟩ := h
  refine ⟨h1, ?_, ?_, ?_⟩
  · intro i hi
    exact Nat.lt_succ_of_lt (h2 i hi)
  · exact Nat.le_succ_of_le h3
  · show s.count + 1 = ((s.nextId + 1 : Nat) : Int) - s.closed.length
    push_cast
    omega

/-- A `release` of a handed-out identity preserves the lease-accounting
invariant and leaves `nextId` unchanged. -/
theorem applyLeaseOp_release_inv (s : LeaseState) (i : Nat)
    (hi : i < s.nextId) (h : leaseInv s) :
    leaseInv (applyLeaseOp s (.release i)) ∧
    (applyLeaseOp s (.release i)).nextId = s.nextId := by
  obtain ⟨h1, h2, h3, h4⟩ := h
  by_cases hmem : i ∈ s.closed
  · simp only [applyLeaseOp, if_pos hmem]
    exact ⟨⟨h1, h2, h3, h4⟩, trivial⟩
  · have hnodup2 : (i :: s.closed).Nodup := List.nodup_cons.mpr ⟨hmem, h1⟩
    have hbound2 : ∀ x ∈ (i :: s.closed), x < s.nextId := by
      intro x hx
      rcases List.mem_cons.mp hx with rfl | hx
      · exact hi
      · exact h2 x hx
    have hlen2 : (i :: s.closed).length ≤ s.nextId := by
      have hcard : (i :: s.closed).toFinset.card = (i :: s.closed).length :=
        List.toFinset_card_of_nodup hnodup2
      have hsub : (i :: s.closed).toFinset ⊆ Finset.range s.nextId := by
        intro x hx
        rw [List.mem_toFinset] at hx
        exact Finset.mem_range.mpr (hbound2 x hx)
      calc (i :: s.closed).length
          = (i :: s.closed).toFinset.card := hcard.symm
        _ ≤ (Finset.range s.nextId).card := Finset.card_le_card hsub
        _ = s.nextId := Finset.card_range _
    have hpos : (0 : Int) ≤ s.count - 1 := by
      have : s.closed.length + 1 ≤ s.nextId := by
        simpa using hlen2
      omega
    simp only [applyLeaseOp, if_neg hmem]
    refine ⟨⟨hnodup2, hbound2, hlen2, ?_⟩, trivial⟩
    show max 0 (s.count - 1) = (s.nextId : Int) - (i :: s.closed).length
    rw [max_eq_right hpos]
    simp only [List.length_cons]
    push_cast
    omega

/-- Running a valid sequence of lease operations preserves the invariant,
and grows `nextId` by exactly the number of acquires. -/
theorem runLeaseOps_inv (ops : List LeaseOp) :
    ∀ s : LeaseState, validLeaseOps s.nextId ops = true → leaseInv s →
      leaseInv (runLeaseOps s ops) ∧
      (runLeaseOps s ops).nextId = s.nextId + countAcquires ops := by
  induction ops with
  | nil =>
    intro s _ h
    exact ⟨h, by simp [runLeaseOps, countAcquires]⟩
  | cons op rest ih =>
    intro s hv hinv
    cases op with
    | acquire =>
      have hnext : (applyLeaseOp s .acquire).nextId = s.nextId + 1 := rfl
      have hv' : validLeaseOps (applyLeaseOp s .acquire).nextId rest = true := by
        rw [hnext]
        simpa [validLeaseOps] using hv
      obtain ⟨ih1, ih2⟩ := ih (applyLeaseOp s .acquire) hv'
        (applyLeaseOp_acquire_inv s hinv)
      refine ⟨ih1, ?_⟩
      show (runLeaseOps (applyLeaseOp s .acquire) rest).nextId
        = s.nextId + countAcquires (.acquire :: rest)
      rw [ih2, hnext]
      simp [countAcquires]
      omega
    | release i =>
      have hv0 : (decide (i < s.nextId) && validLeaseOps s.nextId rest) = true := hv
      have hi : i < s.nextId := by
        have := (Bool.and_eq_true _ _).mp hv0
        exact of_decide_eq_true this.1
      have hrest : validLeaseOps s.nextId rest = true :=
        ((Bool.and_eq_true _ _).mp hv0).2
      obtain ⟨hstep, hkeep⟩ := applyLeaseOp_release_inv s i hi hinv
      have hv' : validLeaseOps (applyLeaseOp s (.release i)).nextId rest = true := by
        rw [hkeep]
        exact hrest
      obtain ⟨ih1, ih2⟩ := ih (applyLeaseOp s (.release i)) hv' hstep
      refine ⟨ih1, ?_⟩
      show (runLeaseOps (applyLeaseOp s (.release i)) rest).nextId
        = s.nextId + countAcquires (.release i :: rest)
      rw [ih2, hkeep]
      simp [countAcquires]

/-- Claim C4: after any valid finite sequence of acquires and releases,
`poolActiveConnections` equals the number of successful acquires minus
the number of distinct leased connections released (each release
completing a decrement at most once), and is never negative; moreover a
second `release` of an already-released connection leaves the state — in
particular the counter — unchanged. -/
theorem C4_lease_accounting (ops : List LeaseOp)
    (hvalid : validLeaseOps 0 ops = true) :
    (runLeaseOps initLease ops).count
        = (countAcquires ops : Int)
          - (runLeaseOps initLease ops).closed.length ∧
    0 ≤ (runLeaseOps initLease ops).count ∧
    (∀ s : LeaseState, ∀ i, i ∈ s.closed → applyLeaseOp s (.release i) = s) := by
  have hinv0 : leaseInv initLease :=
    ⟨List.nodup_nil, by simp [initLease], by simp [initLease], by simp [initLease]⟩
  obtain ⟨⟨h1, h2, h3, h4⟩, hnext⟩ :=
    runLeaseOps_inv ops initLease hvalid hinv0
  refine ⟨?_, ?_, ?_⟩
  · rw [h4, hnext]
    show ((initLease.nextId + countAcquires ops : Nat) : Int)
        - (runLeaseOps initLease ops).closed.length
      = (countAcquires ops : Int) - (runLeaseOps initLease ops).closed.length
    simp [initLease]
  · rw [h4]
    have h3' : (runLeaseOps initLease ops).closed.length
        ≤ (runLeaseOps initLease ops).nextId := h3
    omega
  · intro s i hmem
    simp [applyLeaseOp, hmem]

/-- Claim C4 (witness): instantiation at the sequence acquire, release,
duplicate release, acquire — the duplicate release does not decrement. -/
theorem C4_lease_accounting_witness :
    (runLeaseOps initLease [.acquire, .release 0, .release 0, .acquire]).count
        = (countAcquires [.acquire, .release 0, .release 0, .acquire] : Int)
          - (runLeaseOps initLease
              [.acquire, .release 0, .release 0, .acquire]).closed.length ∧
    0 ≤ (runLeaseOps initLease [.acquire, .release 0, .release 0, .acquire]).count ∧
    (∀ s : LeaseState, ∀ i, i ∈ s.closed → applyLeaseOp s (.release i) = s) :=
  C4_lease_accounting [.acquire, .release 0, .release 0, .acquire] (by decide)

end OdbcPooling
